import Mathlib

/-!
Shallow embedding of the dither / zero-frame-generator / volume-curve core of
shairport-sync (src/common.c).

Machine integers are modelled as `Nat` (uint64_t, reduced mod 2^64 explicitly)
and `Int` (int64_t values); C `double`s are modelled as exact rationals
(IEEE doubles are a subset of the rationals), except inside
`dasl_tapered_vol2attn`, whose `log10` calls force a model over the reals.
The C global RNG state is passed explicitly; `die(...)` is modelled by
`Option`; the `debug(1, ...)` warning calls are modelled by separate
`*_warns` boolean functions mirroring the branch structure of the source.
-/

/-! ## The dither source (src/common.c lines 1582-1616) -/

/-- State of Bob Jenkins' small PRNG: `struct ranctx { uint64_t a, b, c, d; }`. -/
structure ranctx where
  a : Nat
  b : Nat
  c : Nat
  d : Nat
deriving DecidableEq

/-- All four words are genuine uint64_t values. -/
def ranctx.valid (x : ranctx) : Prop :=
  x.a < 2 ^ 64 ∧ x.b < 2 ^ 64 ∧ x.c < 2 ^ 64 ∧ x.d < 2 ^ 64

instance (x : ranctx) : Decidable x.valid := by
  unfold ranctx.valid; infer_instance

/-- The C macro `rot(x,k) = (((x) << (k)) | ((x) >> (64 - (k))))` on uint64_t:
each shift result is a uint64_t (the left shift wraps mod 2^64). -/
def rot (x k : Nat) : Nat := ((x <<< k) % 2 ^ 64) ||| (x >>> (64 - k))

/-- uint64_t addition. -/
def add64 (x y : Nat) : Nat := (x + y) % 2 ^ 64

/-- uint64_t subtraction (wrap-around, via the additive complement). -/
def sub64 (x y : Nat) : Nat := (x + (2 ^ 64 - y % 2 ^ 64)) % 2 ^ 64

/-- `ranval`: one draw of the generator.  Returns the updated state and the
value returned by the C function (the new `d`).
```
uint64_t e = x->a - rot(x->b, 7);
x->a = x->b ^ rot(x->c, 13);
x->b = x->c + rot(x->d, 37);
x->c = x->d + e;
x->d = e + x->a;   // uses the NEW a
return x->d;
``` -/
def ranval (x : ranctx) : ranctx × Nat :=
  let e := sub64 x.a (rot x.b 7)
  let a := x.b ^^^ rot x.c 13
  let b := add64 x.c (rot x.d 37)
  let c := add64 x.d e
  let d := add64 e a
  (⟨a, b, c, d⟩, d)

/-- The 20 discarded warm-up draws of `raninit`. -/
def warmup : Nat → ranctx → ranctx
  | 0, x => x
  | n + 1, x => warmup n (ranval x).1

/-- `raninit`: `x->a = 0xf1ea5eed, x->b = x->c = x->d = seed;` followed by 20
draws whose outputs are discarded. -/
def raninit (seed : Nat) : ranctx :=
  warmup 20 ⟨0xf1ea5eed, seed, seed, seed⟩

/-- `int64_t r64i() { return (ranval(&rx) >> 1); }` : the raw uint64_t draw
logically shifted right one bit, then reinterpreted as int64_t (the value is
below 2^63, so the reinterpretation is the identity). -/
def r64i (st : ranctx) : ranctx × ℤ :=
  ((ranval st).1, (((ranval st).2 >>> 1 : Nat) : ℤ))

/-- The sequence of the first `n` outputs of the generator from a state. -/
def drawSeq (st : ranctx) : Nat → List Nat
  | 0 => []
  | n + 1 => (ranval st).2 :: drawSeq (ranval st).1 n

/-! ### The specification-side model of the dither source.

These definitions follow the words of the spec, not the C code: `rotl(x,k)`
is the mathematical 64-bit left rotation and the combining operations are
ordinary integer arithmetic reduced mod 2^64. -/

/-- Mathematical 64-bit left rotation: the low `64-k` bits move up by `k`
places and the high `k` bits wrap to the bottom. -/
def rotlSpec (x k : Nat) : Nat :=
  ((x % 2 ^ 64) * 2 ^ k + (x % 2 ^ 64) / 2 ^ (64 - k)) % 2 ^ 64

/-- Spec draw: `e = a - rotl(b,7); a' = b xor rotl(c,13); b' = c + rotl(d,37);
c' = d + e; d' = e + a'`, all arithmetic mod 2^64; returns `d'` and commits
`(a',b',c',d')`. -/
def ranvalSpec (x : ranctx) : ranctx × Nat :=
  let e := (((x.a : ℤ) - (rotlSpec x.b 7 : ℤ)) % 2 ^ 64).toNat
  let a := x.b ^^^ rotlSpec x.c 13
  let b := (((x.c : ℤ) + (rotlSpec x.d 37 : ℤ)) % 2 ^ 64).toNat
  let c := (((x.d : ℤ) + (e : ℤ)) % 2 ^ 64).toNat
  let d := (((e : ℤ) + (a : ℤ)) % 2 ^ 64).toNat
  (⟨a, b, c, d⟩, d)

/-- Spec warm-up: n discarded spec draws. -/
def warmupSpec : Nat → ranctx → ranctx
  | 0, x => x
  | n + 1, x => warmupSpec n (ranvalSpec x).1

/-- Spec seeding: `a = 0xf1ea5eed, b = c = d = seed`, then 20 discarded
warm-up draws. -/
def raninitSpec (seed : Nat) : ranctx :=
  warmupSpec 20 ⟨0xf1ea5eed, seed, seed, seed⟩

/-- First `n` outputs of the spec generator. -/
def drawSeqSpec (st : ranctx) : Nat → List Nat
  | 0 => []
  | n + 1 => (ranvalSpec st).2 :: drawSeqSpec (ranvalSpec st).1 n

/-! ## The sample format registry (src/common.c lines 134-143 and common.h) -/

/-- `sps_format_t`: the closed enumeration of PCM encodings, in the order of
`sps_format_description_string_array`. -/
inductive sps_format_t
  | SPS_FORMAT_UNKNOWN
  | SPS_FORMAT_S8
  | SPS_FORMAT_U8
  | SPS_FORMAT_S16
  | SPS_FORMAT_S16_LE
  | SPS_FORMAT_S16_BE
  | SPS_FORMAT_S24
  | SPS_FORMAT_S24_LE
  | SPS_FORMAT_S24_BE
  | SPS_FORMAT_S24_3LE
  | SPS_FORMAT_S24_3BE
  | SPS_FORMAT_S32
  | SPS_FORMAT_S32_LE
  | SPS_FORMAT_S32_BE
  | SPS_FORMAT_AUTO
  | SPS_FORMAT_INVALID
deriving DecidableEq

open sps_format_t

/-! ## The zero-frame generator (src/common.c lines 1893-2049) -/

/-- The dither mask of `generate_zero_frames`: `(int64_t)1 << (64 - bitwidth)`
per the switch statement, then `dither_mask -= 1` after it.  The three sentinel
formats hit `die(...)`, modelled as `none`.  `(int64_t)1 << k` for
k = 32, 40, 48, 56 is exactly `2 ^ k`. -/
def dither_mask (format : sps_format_t) : Option ℤ :=
  match format with
  | SPS_FORMAT_S32 | SPS_FORMAT_S32_LE | SPS_FORMAT_S32_BE =>
    some (2 ^ (64 - 32) - 1)
  | SPS_FORMAT_S24 | SPS_FORMAT_S24_LE | SPS_FORMAT_S24_BE
  | SPS_FORMAT_S24_3LE | SPS_FORMAT_S24_3BE =>
    some (2 ^ (64 - 24) - 1)
  | SPS_FORMAT_S16 | SPS_FORMAT_S16_LE | SPS_FORMAT_S16_BE =>
    some (2 ^ (64 - 16) - 1)
  | SPS_FORMAT_S8 | SPS_FORMAT_U8 =>
    some (2 ^ (64 - 8) - 1)
  | SPS_FORMAT_UNKNOWN | SPS_FORMAT_AUTO | SPS_FORMAT_INVALID => none

/-- C bitwise `&` on int64_t: both operands are reinterpreted as their 64-bit
two's-complement patterns, the patterns are ANDed, and (because every mask the
code uses is below 2^63) the result pattern is its own int64_t value. -/
def and64 (x y : ℤ) : ℤ := (((x % 2 ^ 64).toNat &&& (y % 2 ^ 64).toNat : Nat) : ℤ)

/-- `tpdf = (r & dither_mask) - (previous_random_number & dither_mask)`. -/
def tpdf (mask r prev : ℤ) : ℤ := and64 r mask - and64 prev mask

/-- `sample_length` of each format, from the inner switch (the `default:`
branch sets `sample_length = 0`). -/
def sample_length (format : sps_format_t) : Nat :=
  match format with
  | SPS_FORMAT_S32 | SPS_FORMAT_S32_LE | SPS_FORMAT_S32_BE => 4
  | SPS_FORMAT_S24 | SPS_FORMAT_S24_LE | SPS_FORMAT_S24_BE => 4
  | SPS_FORMAT_S24_3LE | SPS_FORMAT_S24_3BE => 3
  | SPS_FORMAT_S16 | SPS_FORMAT_S16_LE | SPS_FORMAT_S16_BE => 2
  | SPS_FORMAT_S8 | SPS_FORMAT_U8 => 1
  | SPS_FORMAT_UNKNOWN | SPS_FORMAT_AUTO | SPS_FORMAT_INVALID => 0

/-- `(uint8_t)(hyper_sample >> k)`: arithmetic right shift of the int64_t
(which is floor division by 2^k) truncated to its low byte. -/
def sampleByte (h : ℤ) (k : Nat) : Nat := ((h / 2 ^ k) % 256).toNat

/-- The bytes written for one sample, in buffer order.  The native-endian
formats (`S32`, `S24`, `S16`) store through a typed pointer; the host is
modelled as little-endian.  For `S24` the fourth buffer byte is the next byte
of the arithmetically shifted int32 value, i.e. bits 64.. of `hyper_sample`
(zero for the non-negative values the generator produces).  Sentinel formats
never reach this switch (the dither-mask switch has already died). -/
def packSample (format : sps_format_t) (h : ℤ) : List Nat :=
  match format with
  | SPS_FORMAT_S32 =>
    [sampleByte h 32, sampleByte h 40, sampleByte h 48, sampleByte h 56]
  | SPS_FORMAT_S32_LE =>
    [sampleByte h 32, sampleByte h 40, sampleByte h 48, sampleByte h 56]
  | SPS_FORMAT_S32_BE =>
    [sampleByte h 56, sampleByte h 48, sampleByte h 40, sampleByte h 32]
  | SPS_FORMAT_S24_3LE =>
    [sampleByte h 40, sampleByte h 48, sampleByte h 56]
  | SPS_FORMAT_S24_3BE =>
    [sampleByte h 56, sampleByte h 48, sampleByte h 40]
  | SPS_FORMAT_S24 =>
    [sampleByte h 40, sampleByte h 48, sampleByte h 56, sampleByte h 64]
  | SPS_FORMAT_S24_LE =>
    [sampleByte h 40, sampleByte h 48, sampleByte h 56, 0]
  | SPS_FORMAT_S24_BE =>
    [0, sampleByte h 56, sampleByte h 48, sampleByte h 40]
  | SPS_FORMAT_S16_LE =>
    [sampleByte h 48, sampleByte h 56]
  | SPS_FORMAT_S16_BE =>
    [sampleByte h 56, sampleByte h 48]
  | SPS_FORMAT_S16 =>
    [sampleByte h 48, sampleByte h 56]
  | SPS_FORMAT_S8 =>
    [sampleByte h 56]
  | SPS_FORMAT_U8 =>
    [(128 + sampleByte h 56) % 256]
  | SPS_FORMAT_UNKNOWN | SPS_FORMAT_AUTO | SPS_FORMAT_INVALID => []

/-- The per-sample loop of `generate_zero_frames`, iterated `count` times:
draw `r = r64i()`, form `tpdf`, add it to the zero sample if dithering is on,
pack the bytes, and carry `r` forward as `previous_random_number`. -/
def genLoop (format : sps_format_t) (with_dither : Bool) (mask : ℤ) :
    Nat → ranctx → ℤ → List Nat × ranctx × ℤ
  | 0, rng, prev => ([], rng, prev)
  | count + 1, rng, prev =>
    let q := r64i rng
    let r := q.2
    let hyper_sample : ℤ := if with_dither then 0 + tpdf mask r prev else 0
    let rest := genLoop format with_dither mask count q.1 r
    (packSample format hyper_sample ++ rest.1, rest.2)

/-- `generate_zero_frames(outp, number_of_frames, format, with_dither,
random_number_in)`.  The buffer holds `number_of_frames * 2` samples (two
interleaved channels).  `die` on a sentinel format is `none`.  Returns the
byte buffer, the final RNG state (the global `rx`, threaded explicitly) and
the returned final `previous_random_number`. -/
def generate_zero_frames (number_of_frames : Nat) (format : sps_format_t)
    (with_dither : Bool) (random_number_in : ℤ) (rng : ranctx) :
    Option (List Nat × ranctx × ℤ) :=
  match dither_mask format with
  | none => none
  | some mask =>
    some (genLoop format with_dither mask (number_of_frames * 2) rng random_number_in)

/-! ## The volume curve engine (src/common.c lines 1259-1399) -/

/-- `flat_vol2attn(vol, max_db, min_db)`:
`vol_setting = min_db` for safety; if `-30 <= vol <= 0` it becomes
`((max_db - min_db) * (30.0 + vol) / 30) + min_db`. -/
def flat_vol2attn (vol : ℚ) (max_db min_db : ℤ) : ℚ :=
  if vol ≤ 0 ∧ -30 ≤ vol then
    ((max_db - min_db : ℤ) : ℚ) * (30 + vol) / 30 + (min_db : ℚ)
  else (min_db : ℚ)

/-- Whether `flat_vol2attn` hits its `debug(1, ...)` warning call. -/
def flat_vol2attn_warns (vol : ℚ) : Bool :=
  if vol ≤ 0 ∧ -30 ≤ vol then false
  else if vol ≠ -144 then true
  else false

/-- `dasl_tapered_vol2attn(vol, max_db, min_db)`.  `vol_pct = 1 - vol/(-30)`;
if it is nonpositive the safe `min_db` is returned; otherwise the tapered
setting `max_db + 1000 * log10(vol_pct) / log10(2)` is floored by the flat
setting and capped at `max_db`.  The `log10` calls force a real-valued model. -/
noncomputable def dasl_tapered_vol2attn (vol : ℚ) (max_db min_db : ℤ) : ℝ :=
  if vol ≤ 0 ∧ -30 ≤ vol then
    let vol_pct : ℚ := 1 - vol / (-30)
    if vol_pct ≤ 0 then (min_db : ℝ)
    else
      let flat_setting : ℝ := (min_db : ℝ) + ((max_db - min_db : ℤ) : ℝ) * (vol_pct : ℝ)
      let vol_setting : ℝ :=
        (max_db : ℝ) + 1000 * Real.logb 10 (vol_pct : ℝ) / Real.logb 10 2
      if vol_setting < flat_setting then flat_setting
      else if vol_setting > (max_db : ℝ) then (max_db : ℝ)
      else vol_setting
  else (min_db : ℝ)

/-- Whether `dasl_tapered_vol2attn` hits its `debug(1, ...)` warning call. -/
def dasl_tapered_vol2attn_warns (vol : ℚ) : Bool :=
  if vol ≤ 0 ∧ -30 ≤ vol then false
  else if vol ≠ -144 then true
  else false

/-- `vol2attn(vol, max_db, min_db)`, the "standard" profile.  `range_db` is a
C long; `first_slope = -range_db / 2` is C integer division (truncation toward
zero, `Int.tdiv`) whose quotient is then widened to double.  The three-line
loop over `lines[3][2] = {{0, first_slope}, {-5, first_slope - (range_db +
first_slope)/2}, {-17, -range_db}}` is unrolled; the `die` on a zero
denominator is unreachable because `-30 - x` is -30, -25, -13 for the three
fixed breakpoints. -/
def vol2attn (vol : ℚ) (max_db min_db : ℤ) : ℚ :=
  if vol ≤ 0 ∧ -30 ≤ vol then
    let range_db : ℚ := ((max_db - min_db : ℤ) : ℚ)
    let fs0 : ℚ := ((Int.tdiv (-(max_db - min_db)) 2 : ℤ) : ℚ)
    let first_slope : ℚ := if -range_db > fs0 then range_db else fs0
    let x0 : ℚ := 0
    let y0 : ℚ := first_slope
    let x1 : ℚ := -5
    let y1 : ℚ := first_slope - (range_db + first_slope) / 2
    let x2 : ℚ := -17
    let y2 : ℚ := -range_db
    let s0 : ℚ := 0
    let s1 : ℚ :=
      if vol ≤ x0 then
        (let tvol := y0 * (vol - x0) / (-30 - x0); if tvol < s0 then tvol else s0)
      else s0
    let s2 : ℚ :=
      if vol ≤ x1 then
        (let tvol := y1 * (vol - x1) / (-30 - x1); if tvol < s1 then tvol else s1)
      else s1
    let s3 : ℚ :=
      if vol ≤ x2 then
        (let tvol := y2 * (vol - x2) / (-30 - x2); if tvol < s2 then tvol else s2)
      else s2
    s3 + (max_db : ℚ)
  else (min_db : ℚ)

/-- Whether `vol2attn` hits its `debug(1, ...)` warning call. -/
def vol2attn_warns (vol : ℚ) : Bool :=
  if vol ≤ 0 ∧ -30 ≤ vol then false
  else if vol ≠ -144 then true
  else false

/-! ## Helper lemmas -/

/-- Byte-pair swap of a buffer: the relation between `S16_LE` and `S16_BE`
output buffers. -/
def swapPairs : List Nat → List Nat
  | x :: y :: rest => y :: x :: swapPairs rest
  | l => l

theorem swapPairs_length : ∀ l : List Nat, (swapPairs l).length = l.length
  | [] => rfl
  | [_] => rfl
  | _ :: _ :: rest => by
    simp only [swapPairs, List.length_cons, swapPairs_length rest]

theorem and64_nonneg (x y : ℤ) : 0 ≤ and64 x y := Int.natCast_nonneg _

theorem and64_le_mask (x m : ℤ) (h0 : 0 ≤ m) (h1 : m < 2 ^ 64) :
    and64 x m ≤ m := by
  unfold and64
  have hm : m % 2 ^ 64 = m := Int.emod_eq_of_lt h0 h1
  rw [hm]
  calc (((x % 2 ^ 64).toNat &&& m.toNat : Nat) : ℤ)
      ≤ ((m.toNat : Nat) : ℤ) := by exact_mod_cast Nat.and_le_right
    _ = m := Int.toNat_of_nonneg h0

theorem tpdf_bounds (m r prev : ℤ) (h0 : 0 ≤ m) (h1 : m < 2 ^ 64) :
    -m ≤ tpdf m r prev ∧ tpdf m r prev ≤ m := by
  have h2 := and64_nonneg r m
  have h3 := and64_le_mask r m h0 h1
  have h4 := and64_nonneg prev m
  have h5 := and64_le_mask prev m h0 h1
  unfold tpdf
  constructor <;> linarith

theorem hyper_sample_bounds (m r prev : ℤ) (dith : Bool)
    (h0 : 0 ≤ m) (h1 : m < 2 ^ 64) :
    -m ≤ (if dith then 0 + tpdf m r prev else 0) ∧
      (if dith then 0 + tpdf m r prev else 0) ≤ m := by
  have hb := tpdf_bounds m r prev h0 h1
  cases dith <;> simp <;> [skip; constructor] <;> linarith [hb.1, hb.2]

/-- C9: for each supported bit width bw the mask is `2^(64-bw) - 1`, and the
TPDF dither value, hence the pre-truncation sample with dithering enabled,
always lies in `[-mask, mask]`, whatever the signs of the inputs. -/
theorem C9_dither_bounded (format : sps_format_t) (mask r prev : ℤ) (dith : Bool)
    (h : dither_mask format = some mask) :
    (-mask ≤ tpdf mask r prev ∧ tpdf mask r prev ≤ mask) ∧
      (-mask ≤ (if dith then 0 + tpdf mask r prev else 0) ∧
        (if dith then 0 + tpdf mask r prev else 0) ≤ mask) := by
  have hb : 0 ≤ mask ∧ mask < 2 ^ 64 := by
    cases format <;> simp only [dither_mask, Option.some.injEq, reduceCtorEq] at h <;>
      subst h <;> norm_num
  exact ⟨tpdf_bounds mask r prev hb.1 hb.2,
         hyper_sample_bounds mask r prev dith hb.1 hb.2⟩

/-- Witness for C9 at the S16_LE format, r = 5, previous = -7. -/
theorem C9_witness :
    (-(2 ^ 48 - 1 : ℤ) ≤ tpdf (2 ^ 48 - 1) 5 (-7) ∧
      tpdf (2 ^ 48 - 1 : ℤ) 5 (-7) ≤ 2 ^ 48 - 1) ∧
      (-(2 ^ 48 - 1 : ℤ) ≤ (if true then 0 + tpdf (2 ^ 48 - 1) 5 (-7) else 0) ∧
        (if true then 0 + tpdf (2 ^ 48 - 1 : ℤ) 5 (-7) else 0) ≤ 2 ^ 48 - 1) :=
  C9_dither_bounded SPS_FORMAT_S16_LE (2 ^ 48 - 1) 5 (-7) true (by decide)

theorem ranval_snd_lt (st : ranctx) : (ranval st).2 < 2 ^ 64 := by
  unfold ranval add64
  exact Nat.mod_lt _ (by norm_num)

theorem r64i_snd_nonneg (st : ranctx) : 0 ≤ (r64i st).2 := Int.natCast_nonneg _

theorem r64i_snd_lt (st : ranctx) : (r64i st).2 < 2 ^ 63 := by
  have h := ranval_snd_lt st
  have h2 : (ranval st).2 >>> 1 < 2 ^ 63 := by
    rw [Nat.shiftRight_eq_div_pow]
    omega
  show (((ranval st).2 >>> 1 : Nat) : ℤ) < 2 ^ 63
  exact_mod_cast h2

theorem genLoop_last_nonneg (format : sps_format_t) (dith : Bool) (mask : ℤ) :
    ∀ count st prev, 1 ≤ count →
      0 ≤ (genLoop format dith mask count st prev).2.2
  | 0, _, _, h => absurd h (by norm_num)
  | 1, st, _, _ => by
    simp only [genLoop]
    exact r64i_snd_nonneg st
  | (n + 2), st, prev, _ => by
    simp only [genLoop]
    exact genLoop_last_nonneg format dith mask (n + 1) (r64i st).1 (r64i st).2
      (by omega)

/-- C10: every value drawn inside the generator loop is the raw 64-bit draw
logically shifted right one bit, hence lies in `[0, 2^63)`; consequently the
`previous_random_number` returned by `generate_zero_frames` for one or more
frames is non-negative. -/
theorem C10_r64i_nonneg (st : ranctx) (n : Nat) (format : sps_format_t)
    (dith : Bool) (prev : ℤ) (res : List Nat × ranctx × ℤ)
    (hn : 1 ≤ n) (hres : generate_zero_frames n format dith prev st = some res) :
    (r64i st).2 = (((ranval st).2 >>> 1 : Nat) : ℤ) ∧
      0 ≤ (r64i st).2 ∧ (r64i st).2 < 2 ^ 63 ∧ 0 ≤ res.2.2 := by
  refine ⟨rfl, r64i_snd_nonneg st, r64i_snd_lt st, ?_⟩
  unfold generate_zero_frames at hres
  cases hdm : dither_mask format with
  | none => rw [hdm] at hres; exact absurd hres (by simp)
  | some mask =>
    rw [hdm] at hres
    have : res = genLoop format dith mask (n * 2) st prev := by
      exact (Option.some.injEq _ _).mp hres.symm
    rw [this]
    exact genLoop_last_nonneg format dith mask (n * 2) st prev (by omega)

/-- Witness for C10: one frame of S16_LE silence without dither from a
concrete generator state. -/
theorem C10_witness :
    (r64i ⟨1, 2, 3, 4⟩).2 = (((ranval ⟨1, 2, 3, 4⟩).2 >>> 1 : Nat) : ℤ) ∧
      0 ≤ (r64i ⟨1, 2, 3, 4⟩).2 ∧ (r64i ⟨1, 2, 3, 4⟩).2 < 2 ^ 63 ∧
      0 ≤ (([0, 0, 0, 0],
            (⟨18446743523951689724, 3342927665299205, 18446673704965422469,
              18446673155207536254⟩ : ranctx),
            (9223336577603768127 : ℤ)) :
              List Nat × ranctx × ℤ).2.2 :=
  C10_r64i_nonneg ⟨1, 2, 3, 4⟩ 1 SPS_FORMAT_S16_LE false 5 _ (by decide)
    (by decide)

/-- C3 counterexample: from the concrete state (1,2,3,4) the first loop
iteration stores 12161 as `previous_random_number`, while the `d'` produced by
the draw recurrence at that step is 24323 — the stored value is not the raw
generator output. -/
theorem C3_counterexample :
    (genLoop SPS_FORMAT_S16_LE false (2 ^ 48 - 1) 1 ⟨1, 2, 3, 4⟩ 0).2.2 ≠
      (((ranval ⟨1, 2, 3, 4⟩).2 : Nat) : ℤ) := by decide

/-- C3 amended: the value `r` drawn in each loop iteration (and stored as
`previous_random_number`) is the draw recurrence's output `d'` shifted right
by one bit, `r64i() = ranval() >> 1`, not `d'` itself. -/
theorem C3_amended (st : ranctx) (format : sps_format_t) (dith : Bool)
    (mask prev : ℤ) :
    (r64i st).2 = (((ranval st).2 >>> 1 : Nat) : ℤ) ∧
      (genLoop format dith mask 1 st prev).2.2 =
        (((ranval st).2 >>> 1 : Nat) : ℤ) :=
  ⟨rfl, rfl⟩

theorem packSample_zero (format : sps_format_t) (h : format ≠ SPS_FORMAT_U8) :
    packSample format 0 = List.replicate (sample_length format) 0 := by
  cases format <;> first | exact absurd rfl h | decide

theorem genLoop_nodither_buf (format : sps_format_t) (mask : ℤ) (b : Nat)
    (hpack : packSample format 0 = List.replicate (sample_length format) b) :
    ∀ count st prev,
      (genLoop format false mask count st prev).1 =
        List.replicate (count * sample_length format) b := by
  intro count
  induction count with
  | zero => intro st prev; simp [genLoop]
  | succ n ih =>
    intro st prev
    simp only [genLoop, Bool.false_eq_true, if_false, hpack, ih, Nat.succ_mul]
    rw [Nat.add_comm (n * sample_length format), ← List.replicate_add]

/-- C1 counterexample: one frame of dither-free U8 "silence" from a concrete
generator state is the buffer [128, 128], not all-zero bytes. -/
theorem C1_counterexample :
    (generate_zero_frames 1 SPS_FORMAT_U8 false 0 ⟨1, 2, 3, 4⟩).map
        (fun res => res.1) = some [128, 128] ∧ (128 : Nat) ≠ 0 :=
  ⟨by decide, by decide⟩

/-- C1 amended: with dithering disabled the generated buffer is entirely zero
bytes for every supported format except U8; for U8 (unsigned, offset binary)
every byte of the buffer is 128 (0x80), the unsigned-8-bit encoding of digital
silence. -/
theorem C1_amended (n : Nat) (format : sps_format_t) (prev : ℤ) (st : ranctx)
    (res : List Nat × ranctx × ℤ)
    (hres : generate_zero_frames n format false prev st = some res) :
    (format ≠ SPS_FORMAT_U8 →
      res.1 = List.replicate (n * 2 * sample_length format) 0) ∧
      (format = SPS_FORMAT_U8 → res.1 = List.replicate (n * 2) 128) := by
  unfold generate_zero_frames at hres
  cases hdm : dither_mask format with
  | none => rw [hdm] at hres; exact absurd hres (by simp)
  | some mask =>
    rw [hdm] at hres
    have hr : res = genLoop format false mask (n * 2) st prev :=
      (Option.some.injEq _ _).mp hres.symm
    constructor
    · intro hne
      rw [hr, genLoop_nodither_buf format mask 0 (packSample_zero format hne),
        Nat.mul_assoc]
    · intro he
      subst he
      rw [hr, genLoop_nodither_buf SPS_FORMAT_U8 mask 128 (by decide)]
      simp [sample_length]

/-- Witness for C1 (amended): one frame of dither-free S16_LE silence from a
concrete state. -/
theorem C1_witness :
    (SPS_FORMAT_S16_LE ≠ SPS_FORMAT_U8 →
      (([0, 0, 0, 0],
        (⟨18446743523951689724, 3342927665299205, 18446673704965422469,
          18446673155207536254⟩ : ranctx),
        (9223336577603768127 : ℤ)) : List Nat × ranctx × ℤ).1 =
          List.replicate (1 * 2 * sample_length SPS_FORMAT_S16_LE) 0) ∧
      (SPS_FORMAT_S16_LE = SPS_FORMAT_U8 →
        (([0, 0, 0, 0],
          (⟨18446743523951689724, 3342927665299205, 18446673704965422469,
            18446673155207536254⟩ : ranctx),
          (9223336577603768127 : ℤ)) : List Nat × ranctx × ℤ).1 =
            List.replicate (1 * 2) 128) :=
  C1_amended 1 SPS_FORMAT_S16_LE 0 ⟨1, 2, 3, 4⟩ _ (by decide)

theorem genLoop_S16_swap (dith : Bool) (mask : ℤ) :
    ∀ count st prev,
      genLoop SPS_FORMAT_S16_BE dith mask count st prev =
        (swapPairs (genLoop SPS_FORMAT_S16_LE dith mask count st prev).1,
          (genLoop SPS_FORMAT_S16_LE dith mask count st prev).2) := by
  intro count
  induction count with
  | zero => intro st prev; rfl
  | succ n ih =>
    intro st prev
    simp only [genLoop, packSample, ih, List.cons_append, List.nil_append]
    rfl

/-- C8: for the same frame count, dither flag, initial previous-random value
and generator state, the S16_BE buffer is the per-sample byte swap of the
S16_LE buffer (equal length), and the final generator state and returned
previous-random value coincide. -/
theorem C8_format_symmetry (n : Nat) (st : ranctx) (prev : ℤ) (dith : Bool)
    (resL resB : List Nat × ranctx × ℤ)
    (hL : generate_zero_frames n SPS_FORMAT_S16_LE dith prev st = some resL)
    (hB : generate_zero_frames n SPS_FORMAT_S16_BE dith prev st = some resB) :
    resB.1 = swapPairs resL.1 ∧ resB.1.length = resL.1.length ∧
      resB.2 = resL.2 := by
  unfold generate_zero_frames at hL hB
  simp only [dither_mask, Option.some.injEq] at hL hB
  rw [← hL, ← hB, genLoop_S16_swap dith (2 ^ (64 - 16) - 1) (n * 2) st prev]
  exact ⟨rfl, swapPairs_length _, rfl⟩

/-- Witness for C8: one frame from a concrete state without dither. -/
theorem C8_witness :
    (([0, 0, 0, 0],
      (⟨18446743523951689724, 3342927665299205, 18446673704965422469,
        18446673155207536254⟩ : ranctx),
      (9223336577603768127 : ℤ)) : List Nat × ranctx × ℤ).1 =
        swapPairs (([0, 0, 0, 0],
          (⟨18446743523951689724, 3342927665299205, 18446673704965422469,
            18446673155207536254⟩ : ranctx),
          (9223336577603768127 : ℤ)) : List Nat × ranctx × ℤ).1 ∧
      (([0, 0, 0, 0],
        (⟨18446743523951689724, 3342927665299205, 18446673704965422469,
          18446673155207536254⟩ : ranctx),
        (9223336577603768127 : ℤ)) : List Nat × ranctx × ℤ).1.length =
          (([0, 0, 0, 0],
            (⟨18446743523951689724, 3342927665299205, 18446673704965422469,
              18446673155207536254⟩ : ranctx),
            (9223336577603768127 : ℤ)) : List Nat × ranctx × ℤ).1.length ∧
      (([0, 0, 0, 0],
        (⟨18446743523951689724, 3342927665299205, 18446673704965422469,
          18446673155207536254⟩ : ranctx),
        (9223336577603768127 : ℤ)) : List Nat × ranctx × ℤ).2 =
          (([0, 0, 0, 0],
            (⟨18446743523951689724, 3342927665299205, 18446673704965422469,
              18446673155207536254⟩ : ranctx),
            (9223336577603768127 : ℤ)) : List Nat × ranctx × ℤ).2 :=
  C8_format_symmetry 1 ⟨1, 2, 3, 4⟩ 5 false _ _ (by decide) (by decide)

theorem rot_lt (x k : Nat) (hx : x < 2 ^ 64) : rot x k < 2 ^ 64 := by
  unfold rot
  apply Nat.or_lt_two_pow (Nat.mod_lt _ (by norm_num))
  calc x >>> (64 - k) = x / 2 ^ (64 - k) := Nat.shiftRight_eq_div_pow _ _
    _ ≤ x := Nat.div_le_self _ _
    _ < 2 ^ 64 := hx

theorem rotlSpec_lt (x k : Nat) : rotlSpec x k < 2 ^ 64 := by
  unfold rotlSpec
  exact Nat.mod_lt _ (by norm_num)

theorem rot_eq_rotlSpec {k : Nat} (hk1 : 0 < k) (hk2 : k < 64) (x : Nat)
    (hx : x < 2 ^ 64) : rot x k = rotlSpec x k := by
  have hA : k + (64 - k) = 64 := by omega
  have hpow : (2 : ℕ) ^ 64 = 2 ^ k * 2 ^ (64 - k) := by rw [← pow_add, hA]
  have hxmod : x % 2 ^ 64 = x := Nat.mod_eq_of_lt hx
  have hAp : 0 < (2 : ℕ) ^ (64 - k) := Nat.two_pow_pos _
  have hdiv : x / 2 ^ (64 - k) < 2 ^ k := by
    rw [Nat.div_lt_iff_lt_mul hAp, ← hpow]
    exact hx
  have hmul : x * 2 ^ k % 2 ^ 64 = 2 ^ k * (x % 2 ^ (64 - k)) := by
    rw [hpow, mul_comm x, Nat.mul_mod_mul_left]
  have hmlt : x % 2 ^ (64 - k) < 2 ^ (64 - k) := Nat.mod_lt _ hAp
  unfold rot rotlSpec
  rw [Nat.shiftLeft_eq, Nat.shiftRight_eq_div_pow, hxmod, hmul,
    ← Nat.mul_add_lt_is_or hdiv]
  have hbound : 2 ^ k * (x % 2 ^ (64 - k)) + x / 2 ^ (64 - k) < 2 ^ 64 := by
    calc 2 ^ k * (x % 2 ^ (64 - k)) + x / 2 ^ (64 - k)
        < 2 ^ k * (x % 2 ^ (64 - k)) + 2 ^ k := Nat.add_lt_add_left hdiv _
      _ = 2 ^ k * (x % 2 ^ (64 - k) + 1) := by ring
      _ ≤ 2 ^ k * 2 ^ (64 - k) := Nat.mul_le_mul_left _ hmlt
      _ = 2 ^ 64 := hpow.symm
  calc 2 ^ k * (x % 2 ^ (64 - k)) + x / 2 ^ (64 - k)
      = (2 ^ k * (x % 2 ^ (64 - k)) + x / 2 ^ (64 - k)) % 2 ^ 64 :=
        (Nat.mod_eq_of_lt hbound).symm
    _ = (2 ^ 64 * (x / 2 ^ (64 - k)) +
          (2 ^ k * (x % 2 ^ (64 - k)) + x / 2 ^ (64 - k))) % 2 ^ 64 :=
        (Nat.mul_add_mod _ _ _).symm
    _ = (x * 2 ^ k + x / 2 ^ (64 - k)) % 2 ^ 64 := by
        congr 1
        have hqr : 2 ^ (64 - k) * (x / 2 ^ (64 - k)) + x % 2 ^ (64 - k) = x :=
          Nat.div_add_mod x (2 ^ (64 - k))
        calc 2 ^ 64 * (x / 2 ^ (64 - k)) +
              (2 ^ k * (x % 2 ^ (64 - k)) + x / 2 ^ (64 - k))
            = (2 ^ (64 - k) * (x / 2 ^ (64 - k)) + x % 2 ^ (64 - k)) * 2 ^ k +
                x / 2 ^ (64 - k) := by rw [hpow]; ring
          _ = x * 2 ^ k + x / 2 ^ (64 - k) := by rw [hqr]

theorem sub64_eq (a b : Nat) (ha : a < 2 ^ 64) (hb : b < 2 ^ 64) :
    sub64 a b = (((a : ℤ) - (b : ℤ)) % 2 ^ 64).toNat := by
  unfold sub64
  have h1 : b % 2 ^ 64 = b := Nat.mod_eq_of_lt hb
  rw [h1]
  have h64n : (2 : ℕ) ^ 64 = 18446744073709551616 := by norm_num
  have h64z : (2 : ℤ) ^ 64 = 18446744073709551616 := by norm_num
  rw [h64n] at *
  rw [h64z]
  omega

theorem add64_eq (a b : Nat) :
    add64 a b = (((a : ℤ) + (b : ℤ)) % 2 ^ 64).toNat := by
  unfold add64
  have h64n : (2 : ℕ) ^ 64 = 18446744073709551616 := by norm_num
  have h64z : (2 : ℤ) ^ 64 = 18446744073709551616 := by norm_num
  rw [h64n, h64z]
  omega

theorem sub64_lt (a b : Nat) : sub64 a b < 2 ^ 64 := Nat.mod_lt _ (by norm_num)

theorem add64_lt (a b : Nat) : add64 a b < 2 ^ 64 := Nat.mod_lt _ (by norm_num)

theorem ranval_eq (x : ranctx) (hx : x.valid) : ranval x = ranvalSpec x := by
  obtain ⟨ha, hb, hc, hd⟩ := hx
  have hrb : rot x.b 7 = rotlSpec x.b 7 :=
    rot_eq_rotlSpec (by norm_num) (by norm_num) x.b hb
  have hrc : rot x.c 13 = rotlSpec x.c 13 :=
    rot_eq_rotlSpec (by norm_num) (by norm_num) x.c hc
  have hrd : rot x.d 37 = rotlSpec x.d 37 :=
    rot_eq_rotlSpec (by norm_num) (by norm_num) x.d hd
  simp only [ranval, ranvalSpec]
  rw [hrb, hrc, hrd, sub64_eq x.a (rotlSpec x.b 7) ha (rotlSpec_lt _ _)]
  simp only [add64_eq]

theorem ranval_valid (x : ranctx) (hx : x.valid) : (ranval x).1.valid := by
  obtain ⟨_, hb, hc, _⟩ := hx
  refine ⟨Nat.xor_lt_two_pow hb (rot_lt x.c 13 hc), ?_, ?_, ?_⟩ <;>
    exact Nat.mod_lt _ (by norm_num)

theorem warmup_eq : ∀ (n : Nat) (x : ranctx), x.valid →
    warmup n x = warmupSpec n x ∧ (warmup n x).valid
  | 0, x, hx => ⟨rfl, hx⟩
  | n + 1, x, hx => by
    have h1 := ranval_eq x hx
    have h2 := ranval_valid x hx
    have h3 := warmup_eq n (ranval x).1 h2
    constructor
    · show warmup n (ranval x).1 = warmupSpec n (ranvalSpec x).1
      rw [← h1]
      exact h3.1
    · exact h3.2

theorem raninit_eq (seed : Nat) (h : seed < 2 ^ 64) :
    raninit seed = raninitSpec seed ∧ (raninit seed).valid :=
  warmup_eq 20 ⟨0xf1ea5eed, seed, seed, seed⟩ ⟨by norm_num, h, h, h⟩

theorem drawSeq_eq : ∀ (n : Nat) (x : ranctx), x.valid →
    drawSeq x n = drawSeqSpec x n
  | 0, _, _ => rfl
  | n + 1, x, hx => by
    have h1 := ranval_eq x hx
    show (ranval x).2 :: drawSeq (ranval x).1 n =
      (ranvalSpec x).2 :: drawSeqSpec (ranvalSpec x).1 n
    rw [← h1, drawSeq_eq n (ranval x).1 (ranval_valid x hx)]

/-- C2: seeding sets the state to `a = 0xf1ea5eed, b = c = d = seed` and
performs exactly 20 discarded warm-up draws, and each draw follows the
documented recurrence (`rotl` = 64-bit left rotation, arithmetic mod 2^64),
as captured by the spec-side model `ranvalSpec`/`raninitSpec`; consequently
re-seeding with an equal seed reproduces the draw sequence bit-for-bit. -/
theorem C2_rng_reproducible (seed seed2 : Nat) (st : ranctx) (n : Nat)
    (hseed : seed < 2 ^ 64) (hst : st.valid) (hss : seed = seed2) :
    ranval st = ranvalSpec st ∧
      raninit seed = raninitSpec seed ∧
      drawSeq (raninit seed) n = drawSeqSpec (raninitSpec seed) n ∧
      drawSeq (raninit seed) n = drawSeq (raninit seed2) n := by
  obtain ⟨h1, h2⟩ := raninit_eq seed hseed
  exact ⟨ranval_eq st hst, h1,
    by rw [← h1]; exact drawSeq_eq n (raninit seed) h2,
    by rw [hss]⟩

/-- Witness for C2 at seed 1 and the concrete state (1,2,3,4). -/
theorem C2_witness :
    ranval ⟨1, 2, 3, 4⟩ = ranvalSpec ⟨1, 2, 3, 4⟩ ∧
      raninit 1 = raninitSpec 1 ∧
      drawSeq (raninit 1) 3 = drawSeqSpec (raninitSpec 1) 3 ∧
      drawSeq (raninit 1) 3 = drawSeq (raninit 1) 3 :=
  C2_rng_reproducible 1 1 ⟨1, 2, 3, 4⟩ 3 (by norm_num) (by decide) rfl

/-- C4: the Flat profile hits `max_db` at volume 0, `min_db` at -30 and at the
mute sentinel -144, equals the linear interpolation formula on [-30, 0]
(hence is linear), is monotonically non-decreasing there, and takes the
documented concrete values for `min_db = -6000, max_db = 0`. -/
theorem C4_flat_profile (max_db min_db : ℤ) (v1 v2 : ℚ)
    (h : min_db < max_db) (h1 : -30 ≤ v1) (h12 : v1 ≤ v2) (h2 : v2 ≤ 0) :
    flat_vol2attn 0 max_db min_db = (max_db : ℚ) ∧
      flat_vol2attn (-30) max_db min_db = (min_db : ℚ) ∧
      flat_vol2attn (-144) max_db min_db = (min_db : ℚ) ∧
      flat_vol2attn v1 max_db min_db =
        (min_db : ℚ) + ((max_db - min_db : ℤ) : ℚ) * (30 + v1) / 30 ∧
      flat_vol2attn v1 max_db min_db ≤ flat_vol2attn v2 max_db min_db ∧
      flat_vol2attn (-15) 0 (-6000) = -3000 ∧
      flat_vol2attn 0 0 (-6000) = 0 ∧
      flat_vol2attn (-144) 0 (-6000) = -6000 := by
  have hv1le : v1 ≤ 0 := le_trans h12 h2
  have hv2ge : -30 ≤ v2 := le_trans h1 h12
  have hr : (0 : ℚ) ≤ ((max_db - min_db : ℤ) : ℚ) := by
    have : (min_db : ℚ) ≤ (max_db : ℚ) := by exact_mod_cast h.le
    push_cast
    linarith
  refine ⟨?_, ?_, ?_, ?_, ?_, ?_, ?_, ?_⟩
  · unfold flat_vol2attn
    rw [if_pos (by norm_num)]
    push_cast
    ring
  · unfold flat_vol2attn
    rw [if_pos (by norm_num)]
    push_cast
    ring
  · unfold flat_vol2attn
    rw [if_neg (by norm_num)]
  · unfold flat_vol2attn
    rw [if_pos ⟨hv1le, h1⟩]
    push_cast
    ring
  · unfold flat_vol2attn
    rw [if_pos ⟨hv1le, h1⟩, if_pos ⟨h2, hv2ge⟩]
    have hmul : ((max_db - min_db : ℤ) : ℚ) * (30 + v1) ≤
        ((max_db - min_db : ℤ) : ℚ) * (30 + v2) :=
      mul_le_mul_of_nonneg_left (by linarith) hr
    have h30 : (0 : ℚ) < 30 := by norm_num
    have := (div_le_div_right h30).mpr hmul
    linarith
  · norm_num [flat_vol2attn]
  · norm_num [flat_vol2attn]
  · norm_num [flat_vol2attn]

/-- Witness for C4 with `min_db = -6000, max_db = 0`, volumes -20 and -10. -/
theorem C4_witness :
    flat_vol2attn 0 0 (-6000) = ((0 : ℤ) : ℚ) ∧
      flat_vol2attn (-30) 0 (-6000) = ((-6000 : ℤ) : ℚ) ∧
      flat_vol2attn (-144) 0 (-6000) = ((-6000 : ℤ) : ℚ) ∧
      flat_vol2attn (-20) 0 (-6000) =
        ((-6000 : ℤ) : ℚ) + (((0 : ℤ) - (-6000) : ℤ) : ℚ) * (30 + (-20)) / 30 ∧
      flat_vol2attn (-20) 0 (-6000) ≤ flat_vol2attn (-10) 0 (-6000) ∧
      flat_vol2attn (-15) 0 (-6000) = -3000 ∧
      flat_vol2attn 0 0 (-6000) = 0 ∧
      flat_vol2attn (-144) 0 (-6000) = -6000 :=
  C4_flat_profile 0 (-6000) (-20) (-10) (by decide) (by decide) (by decide)
    (by decide)

/-- C7: at the mute sentinel -144 all three profiles return exactly `min_db`
and do not warn; at any other out-of-range volume all three warn and return
exactly `min_db`. -/
theorem C7_out_of_range (vol : ℚ) (max_db min_db : ℤ)
    (h : ¬(vol ≤ 0 ∧ -30 ≤ vol)) :
    (vol = -144 →
      flat_vol2attn vol max_db min_db = (min_db : ℚ) ∧
        dasl_tapered_vol2attn vol max_db min_db = (min_db : ℝ) ∧
        vol2attn vol max_db min_db = (min_db : ℚ) ∧
        flat_vol2attn_warns vol = false ∧
        dasl_tapered_vol2attn_warns vol = false ∧
        vol2attn_warns vol = false) ∧
      (vol ≠ -144 →
        flat_vol2attn vol max_db min_db = (min_db : ℚ) ∧
          dasl_tapered_vol2attn vol max_db min_db = (min_db : ℝ) ∧
          vol2attn vol max_db min_db = (min_db : ℚ) ∧
          flat_vol2attn_warns vol = true ∧
          dasl_tapered_vol2attn_warns vol = true ∧
          vol2attn_warns vol = true) := by
  constructor <;> intro hv <;>
    refine ⟨?_, ?_, ?_, ?_, ?_, ?_⟩ <;>
    simp only [flat_vol2attn, dasl_tapered_vol2attn, vol2attn,
      flat_vol2attn_warns, dasl_tapered_vol2attn_warns, vol2attn_warns,
      if_neg h] <;>
    simp [hv]

/-- Witness for C7 at the out-of-range volume 5. -/
theorem C7_witness :
    ((5 : ℚ) = -144 →
      flat_vol2attn 5 0 (-6000) = ((-6000 : ℤ) : ℚ) ∧
        dasl_tapered_vol2attn 5 0 (-6000) = ((-6000 : ℤ) : ℝ) ∧
        vol2attn 5 0 (-6000) = ((-6000 : ℤ) : ℚ) ∧
        flat_vol2attn_warns 5 = false ∧
        dasl_tapered_vol2attn_warns 5 = false ∧
        vol2attn_warns 5 = false) ∧
      ((5 : ℚ) ≠ -144 →
        flat_vol2attn 5 0 (-6000) = ((-6000 : ℤ) : ℚ) ∧
          dasl_tapered_vol2attn 5 0 (-6000) = ((-6000 : ℤ) : ℝ) ∧
          vol2attn 5 0 (-6000) = ((-6000 : ℤ) : ℚ) ∧
          flat_vol2attn_warns 5 = true ∧
          dasl_tapered_vol2attn_warns 5 = true ∧
          vol2attn_warns 5 = true) :=
  C7_out_of_range 5 0 (-6000) (by decide)

theorem dasl_in_range (vol : ℚ) (max_db min_db : ℤ)
    (h1 : vol ≤ 0) (h2 : -30 ≤ vol) :
    dasl_tapered_vol2attn vol max_db min_db =
      if (1 - vol / (-30) : ℚ) ≤ 0 then (min_db : ℝ)
      else
        if (max_db : ℝ) +
              1000 * Real.logb 10 ((1 - vol / (-30) : ℚ) : ℝ) / Real.logb 10 2 <
            (min_db : ℝ) +
              ((max_db - min_db : ℤ) : ℝ) * ((1 - vol / (-30) : ℚ) : ℝ) then
          (min_db : ℝ) +
            ((max_db - min_db : ℤ) : ℝ) * ((1 - vol / (-30) : ℚ) : ℝ)
        else
          if (max_db : ℝ) +
                1000 * Real.logb 10 ((1 - vol / (-30) : ℚ) : ℝ) /
                  Real.logb 10 2 >
              (max_db : ℝ) then (max_db : ℝ)
          else
            (max_db : ℝ) +
              1000 * Real.logb 10 ((1 - vol / (-30) : ℚ) : ℝ) /
                Real.logb 10 2 := by
  unfold dasl_tapered_vol2attn
  rw [if_pos ⟨h1, h2⟩]

/-- C5: for `min_db ≤ max_db` and any valid volume (in [-30,0] or the mute
sentinel -144), the DaslTapered profile's value lies in `[min_db, max_db]`
and is at least the Flat profile's value at the same inputs. -/
theorem C5_dasl_tapered_bound (vol : ℚ) (max_db min_db : ℤ)
    (hm : min_db ≤ max_db) (hv : (vol ≤ 0 ∧ -30 ≤ vol) ∨ vol = -144) :
    (min_db : ℝ) ≤ dasl_tapered_vol2attn vol max_db min_db ∧
      dasl_tapered_vol2attn vol max_db min_db ≤ (max_db : ℝ) ∧
      ((flat_vol2attn vol max_db min_db : ℚ) : ℝ) ≤
        dasl_tapered_vol2attn vol max_db min_db := by
  have hmR : (min_db : ℝ) ≤ (max_db : ℝ) := by exact_mod_cast hm
  rcases hv with ⟨h1, h2⟩ | hv
  · rw [dasl_in_range vol max_db min_db h1 h2]
    have hflat_eq : flat_vol2attn vol max_db min_db =
        ((max_db - min_db : ℤ) : ℚ) * (30 + vol) / 30 + (min_db : ℚ) := by
      unfold flat_vol2attn
      rw [if_pos ⟨h1, h2⟩]
    set p : ℚ := 1 - vol / (-30) with hp
    have hp30 : p = (30 + vol) / 30 := by rw [hp]; ring
    have hq : flat_vol2attn vol max_db min_db =
        ((max_db - min_db : ℤ) : ℚ) * p + (min_db : ℚ) := by
      rw [hflat_eq, hp30]
      ring
    by_cases hple : p ≤ 0
    · rw [if_pos hple]
      have hpge : 0 ≤ p := by
        rw [hp30]
        apply div_nonneg (by linarith) (by norm_num)
      have hp0 : p = 0 := le_antisymm hple hpge
      have hfmin : flat_vol2attn vol max_db min_db = (min_db : ℚ) := by
        rw [hq, hp0]
        ring
      refine ⟨le_refl _, hmR, ?_⟩
      rw [hfmin]
      push_cast
      exact le_refl _
    · push_neg at hple
      have hp1 : p ≤ 1 := by
        rw [hp30, div_le_one (by norm_num)]
        linarith
      have hpR0 : (0 : ℝ) < (p : ℝ) := by exact_mod_cast hple
      have hpR1 : ((p : ℚ) : ℝ) ≤ 1 := by exact_mod_cast hp1
      have hr0 : (0 : ℝ) ≤ (max_db : ℝ) - (min_db : ℝ) := by linarith
      set FR : ℝ := (min_db : ℝ) + ((max_db - min_db : ℤ) : ℝ) * (p : ℝ)
        with hFR
      set T : ℝ := (max_db : ℝ) + 1000 * Real.logb 10 (p : ℝ) / Real.logb 10 2
        with hT
      rw [if_neg (not_le.mpr hple)]
      have hflatR : ((flat_vol2attn vol max_db min_db : ℚ) : ℝ) = FR := by
        rw [hq, hFR]
        push_cast
        ring
      have hFRmin : (min_db : ℝ) ≤ FR := by
        rw [hFR]
        push_cast
        nlinarith [hpR0.le, hr0]
      have hFRmax : FR ≤ (max_db : ℝ) := by
        rw [hFR]
        push_cast
        nlinarith [hpR1, hr0, hpR0.le]
      have hTmax : T ≤ (max_db : ℝ) := by
        rw [hT]
        have hlog2pos : 0 < Real.log 2 := Real.log_pos (by norm_num)
        have hlog10pos : 0 < Real.log 10 := Real.log_pos (by norm_num)
        have hlogp : Real.log ((p : ℚ) : ℝ) ≤ 0 := Real.log_nonpos hpR0.le hpR1
        have hratio : Real.logb 10 ((p : ℚ) : ℝ) / Real.logb 10 2 =
            Real.log ((p : ℚ) : ℝ) / Real.log 2 := by
          simp only [Real.logb]
          field_simp
        rw [mul_div_assoc, hratio]
        have hq2 : Real.log ((p : ℚ) : ℝ) / Real.log 2 ≤ 0 :=
          div_nonpos_iff.mpr (Or.inr ⟨hlogp, hlog2pos.le⟩)
        nlinarith [hq2]
      by_cases hb1 : T < FR
      · rw [if_pos hb1]
        exact ⟨hFRmin, hFRmax, by rw [hflatR]⟩
      · rw [if_neg hb1]
        push_neg at hb1
        by_cases hb2 : T > (max_db : ℝ)
        · rw [if_pos hb2]
          exact ⟨hmR, le_refl _, by rw [hflatR]; exact hFRmax⟩
        · rw [if_neg hb2]
          push_neg at hb2
          exact ⟨le_trans hFRmin hb1, hb2, by rw [hflatR]; exact hb1⟩
  · subst hv
    have hd : dasl_tapered_vol2attn (-144) max_db min_db = (min_db : ℝ) := by
      unfold dasl_tapered_vol2attn
      rw [if_neg (by norm_num)]
    have hf : flat_vol2attn (-144) max_db min_db = (min_db : ℚ) := by
      unfold flat_vol2attn
      rw [if_neg (by norm_num)]
    rw [hd, hf]
    exact ⟨le_refl _, hmR, by push_cast; exact le_refl _⟩

/-- Witness for C5 at the mute volume -144 with `min_db = -6000, max_db = 0`. -/
theorem C5_witness :
    ((-6000 : ℤ) : ℝ) ≤ dasl_tapered_vol2attn (-144) 0 (-6000) ∧
      dasl_tapered_vol2attn (-144) 0 (-6000) ≤ ((0 : ℤ) : ℝ) ∧
      ((flat_vol2attn (-144) 0 (-6000) : ℚ) : ℝ) ≤
        dasl_tapered_vol2attn (-144) 0 (-6000) :=
  C5_dasl_tapered_bound (-144) 0 (-6000) (by decide) (Or.inr rfl)

theorem ite_lt_min (t s : ℚ) : (if t < s then t else s) = min t s := by
  rcases lt_or_le t s with h | h
  · rw [if_pos h, min_eq_left h.le]
  · rw [if_neg (not_lt.mpr h), min_eq_right h]

theorem min_chain_eq (b5 b17 : Prop) [Decidable b5] [Decidable b17]
    (s1 t1 t2 : ℚ) (hs1 : s1 ≤ 0) (himp : b17 → b5) :
    (if b17 then min t2 (if b5 then min t1 s1 else s1)
      else (if b5 then min t1 s1 else s1)) =
      min (min s1 (if b5 then t1 else 0)) (if b17 then t2 else 0) := by
  by_cases h5 : b5
  · by_cases h17 : b17
    · simp only [if_pos h5, if_pos h17]
      rw [min_comm t2 (min t1 s1), min_comm t1 s1]
    · simp only [if_pos h5, if_neg h17]
      rw [min_comm t1 s1]
      exact (min_eq_left (le_trans (min_le_left s1 t1) hs1)).symm
  · have h17 : ¬b17 := fun h => h5 (himp h)
    simp only [if_neg h5, if_neg h17]
    symm
    rw [min_eq_left hs1, min_eq_left hs1]

theorem line_mono (y c w1 w2 : ℚ) (hy : y ≤ 0) (hc : c < 0) (h : w1 ≤ w2) :
    y * w1 / c ≤ y * w2 / c :=
  (div_le_div_right_of_neg hc).mpr (mul_le_mul_of_nonpos_left h hy)

theorem line_nonpos (y c w : ℚ) (hy : y ≤ 0) (hc : c ≤ 0) (hw : w ≤ 0) :
    y * w / c ≤ 0 := by
  have hnum : 0 ≤ y * w := by nlinarith
  exact div_nonpos_iff.mpr (Or.inl ⟨hnum, hc⟩)

/-- C6: for `min_db ≤ max_db` the Standard profile is monotonically
non-decreasing in the volume over [-30, 0] and satisfies
`vol2attn 0 = max_db`. -/
theorem C6_standard_monotone (max_db min_db : ℤ) (v1 v2 : ℚ)
    (hm : min_db ≤ max_db) (h1 : -30 ≤ v1) (h12 : v1 ≤ v2) (h2 : v2 ≤ 0) :
    vol2attn v1 max_db min_db ≤ vol2attn v2 max_db min_db ∧
      vol2attn 0 max_db min_db = (max_db : ℚ) := by
  set R : ℚ := ((max_db - min_db : ℤ) : ℚ) with hR
  set Q : ℚ := ((Int.tdiv (-(max_db - min_db)) 2 : ℤ) : ℚ) with hQ
  have htd : Int.tdiv (-(max_db - min_db)) 2 = -((max_db - min_db) / 2) := by
    rw [Int.neg_tdiv, Int.tdiv_eq_ediv (by omega) (by norm_num)]
  have hdd : 0 ≤ (max_db - min_db) / 2 ∧
      2 * ((max_db - min_db) / 2) ≤ max_db - min_db ∧
      max_db - min_db ≤ 2 * ((max_db - min_db) / 2) + 1 := by omega
  have hR0 : (0 : ℚ) ≤ R := by
    rw [hR]
    exact_mod_cast (by omega : (0 : ℤ) ≤ max_db - min_db)
  have hQval : Q = -((((max_db - min_db) / 2 : ℤ)) : ℚ) := by
    rw [hQ, htd]
    push_cast
    ring
  have hQ0 : Q ≤ 0 := by
    have hcst : (0 : ℚ) ≤ (((max_db - min_db) / 2 : ℤ) : ℚ) := by
      exact_mod_cast hdd.1
    rw [hQval]
    linarith
  have h2Q : -R ≤ 2 * Q := by
    have hc : ((2 * ((max_db - min_db) / 2) : ℤ) : ℚ) ≤
        ((max_db - min_db : ℤ) : ℚ) := by exact_mod_cast hdd.2.1
    rw [hQval, hR]
    push_cast at hc ⊢
    linarith
  have hQR : -R ≤ Q := by linarith
  have hy1 : Q - (R + Q) / 2 ≤ 0 := by linarith
  have hy2 : -R ≤ 0 := by linarith
  have key : ∀ v : ℚ, v ≤ 0 → -30 ≤ v →
      vol2attn v max_db min_db =
        min (min (min (Q * (v - 0) / (-30 - 0)) 0)
            (if v ≤ -5 then (Q - (R + Q) / 2) * (v - -5) / (-30 - -5) else 0))
          (if v ≤ -17 then -R * (v - -17) / (-30 - -17) else 0) +
          (max_db : ℚ) := by
    intro v hv1 hv2
    simp only [vol2attn]
    rw [if_pos ⟨hv1, hv2⟩, ← hR, ← hQ, if_neg (not_lt.mpr hQR), if_pos hv1]
    simp only [ite_lt_min]
    congr 1
    exact min_chain_eq (v ≤ -5) (v ≤ -17) _ _ _ (min_le_right _ _)
      (fun h => by linarith)
  constructor
  · rw [key v1 (le_trans h12 h2) h1, key v2 h2 (le_trans h1 h12)]
    apply add_le_add_right
    apply min_le_min
    apply min_le_min
    apply min_le_min
    · exact line_mono Q (-30 - 0) (v1 - 0) (v2 - 0) hQ0 (by norm_num)
        (by linarith)
    · exact le_refl 0
    · by_cases c2 : v2 ≤ -5
      · rw [if_pos (le_trans h12 c2), if_pos c2]
        exact line_mono (Q - (R + Q) / 2) (-30 - -5) (v1 - -5) (v2 - -5) hy1
          (by norm_num) (by linarith)
      · rw [if_neg c2]
        by_cases c1 : v1 ≤ -5
        · rw [if_pos c1]
          exact line_nonpos (Q - (R + Q) / 2) (-30 - -5) (v1 - -5) hy1
            (by norm_num) (by linarith)
        · rw [if_neg c1]
    · by_cases c2 : v2 ≤ -17
      · rw [if_pos (le_trans h12 c2), if_pos c2]
        exact line_mono (-R) (-30 - -17) (v1 - -17) (v2 - -17) hy2
          (by norm_num) (by linarith)
      · rw [if_neg c2]
        by_cases c1 : v1 ≤ -17
        · rw [if_pos c1]
          exact line_nonpos (-R) (-30 - -17) (v1 - -17) hy2 (by norm_num)
            (by linarith)
        · rw [if_neg c1]
  · rw [key 0 (le_refl 0) (by norm_num)]
    norm_num

/-- Witness for C6 with `min_db = -6000, max_db = 0`, volumes -20 and -10. -/
theorem C6_witness :
    vol2attn (-20) 0 (-6000) ≤ vol2attn (-10) 0 (-6000) ∧
      vol2attn 0 0 (-6000) = ((0 : ℤ) : ℚ) :=
  C6_standard_monotone 0 (-6000) (-20) (-10) (by decide) (by decide) (by decide)
    (by decide)
